import Mathlib

/-!
Shallow embedding of `src/pay/payment_consumer.py` (tezos-reward-distributor
payment consumer) together with the parts of its collaborators that the file
uses.  Everything defined here is translated from the Python source; the few
collaborator pieces whose source is not in the repository snapshot (constants,
path derivation, the transform phases, the sequencing comparator) are modelled
from the specification and carry a doc comment saying so.
-/

set_option maxRecDepth 10000

namespace TRD

/-- Modelled from the spec: `paidStatus ∈ {Unpaid, Paid, Fail, Injected}`
(`Constants.PaymentStatus` is not part of the snapshot). -/
inductive PaymentStatus where
  | unpaid
  | paid
  | fail
  | injected
deriving Repr, DecidableEq

/-- Modelled from the spec: Paid/Injected are terminal ("processed"). -/
def PaymentStatus.is_processed : PaymentStatus → Bool
  | .paid => true
  | .injected => true
  | _ => false

/-- Modelled from the spec: reward item type constants of `model.reward_log`. -/
def TYPE_FOUNDER : String := "F"

/-- Modelled from the spec: reward item type constants of `model.reward_log`. -/
def TYPE_OWNER : String := "O"

/-- Modelled from the spec: reward item type constants of `model.reward_log`. -/
def TYPE_DELEGATOR : String := "D"

/-- Modelled from the spec: reward item type constants of `model.reward_log`. -/
def TYPE_MERGED : String := "M"

/-- Modelled from the spec: the distinguished poison-pill payment type of
`Constants.EXIT_PAYMENT_TYPE`. -/
def EXIT_PAYMENT_TYPE : String := "exit"

/-- Modelled from the spec: mutez per tez (`Constants.MUTEZ_PER_TEZ`),
used for the "truncated total payout in whole units". -/
def MUTEZ_PER_TEZ : Nat := 1000000

/-- Modelled from the spec: version/runtime metadata (`Constants.VERSION`). -/
def VERSION : String := "trd"

/-- A reward/payment item (`model.reward_log.RewardLog`): the fields read or
written by `payment_consumer.py`. -/
structure RewardLog where
  address : String
  type : String
  adjusted_amount : Nat
  staking_balance : Nat
  payable : Bool
  paid : PaymentStatus
  desc : String
  delegate_transaction_fee : Nat
  delegator_transaction_fee : Nat
deriving Repr, DecidableEq

/-- A payment batch dequeued from the payments queue.  `has_producer_ref`
records whether `payment_batch.producer_ref` is set. -/
structure Batch where
  cycle : Nat
  batch : List RewardLog
  has_producer_ref : Bool
deriving Repr, DecidableEq

/-- The tuple returned by `BatchPayer.pay` (external executor): per-item
outcome logs and aggregates. -/
structure PayResult where
  payment_logs : List RewardLog
  total_attempts : Nat
  total_payout_amount : Nat
  number_future_payable_cycles : Nat
deriving Repr, DecidableEq

/-- Command-line arguments object (`self.args`); the fields
`create_stats_dict` reads. -/
structure Args where
  network : String
  background_service : Bool
  reward_data_provider : String
  release_override : Int
  payment_offset : Int
  docker : Bool
deriving Repr, DecidableEq

/-- Modelled from the spec: reward-type classification (`isIdeal`/`isActual`). -/
inductive RewardsType where
  | ideal
  | actual
  | unknown
deriving Repr, DecidableEq

def RewardsType.isIdeal : RewardsType → Bool
  | .ideal => true
  | _ => false

def RewardsType.isActual : RewardsType → Bool
  | .actual => true
  | _ => false

/-- Consumer configuration: the constructor arguments of `PaymentConsumer`
that `_consume_batch` and its helpers read. -/
structure ConsumerConfig where
  payments_dir : String
  key_name : String
  dry_run : Bool
  reactivate_zeroed : Bool
  delegator_pays_ra_fee : Bool
  delegator_pays_xfer_fee : Bool
  dest_map : List (String × String)
  publish_stats : Bool
  calculations_dir : Option String
  baking_address : String
  rewards_type : RewardsType
  args : Option Args
deriving Repr, DecidableEq

/-- Modelled from the spec: report paths are opaque, keyed by
`(cycle, failCount)`; the core only checks existence, creates and deletes.
Distinct keys denote distinct files. -/
inductive FsPath where
  | report (dir : String) (cycle : Nat) (fail_count : Nat)
  | busy (dir : String) (cycle : Nat) (fail_count : Nat)
  | calc_file (dir : String) (cycle : Nat)
deriving Repr, DecidableEq

/-- Modelled from the spec: `util.dir_utils.get_payment_report_file_path`,
opaque path derivation keyed by `(cycle, failCount)`. -/
def get_payment_report_file_path (pymnt_dir : String) (pymnt_cycle : Nat)
    (nb_failed : Nat) : FsPath :=
  FsPath.report pymnt_dir pymnt_cycle nb_failed

/-- Modelled from the spec: `util.dir_utils.get_busy_file`, the busy-marker
co-located with a report file. -/
def get_busy_file : FsPath → FsPath
  | .report d c f => .busy d c f
  | p => p

/-- Modelled from the spec: `util.dir_utils.get_calculation_report_file_path`. -/
def get_calculation_report_file_path (calc_dir : String) (pymnt_cycle : Nat) :
    FsPath :=
  FsPath.calc_file calc_dir pymnt_cycle

/-- The filesystem as the set of files present; a write creates the file if
absent (overwrite leaves the set unchanged). -/
def add_file (fs : List FsPath) (p : FsPath) : List FsPath :=
  if p ∈ fs then fs else fs ++ [p]

/-- `count_and_log_failed`: tally paid/failed/injected over the outcome
logs, in loop order. -/
def count_and_log_failed (payment_logs : List RewardLog) : Nat × Nat × Nat :=
  payment_logs.foldl
    (fun counts pymnt_itm =>
      if pymnt_itm.paid = PaymentStatus.paid then
        (counts.1 + 1, counts.2.1, counts.2.2)
      else if pymnt_itm.paid = PaymentStatus.fail then
        (counts.1, counts.2.1 + 1, counts.2.2)
      else if pymnt_itm.paid = PaymentStatus.injected then
        (counts.1, counts.2.1, counts.2.2 + 1)
      else counts)
    (0, 0, 0)

/-- Modelled from the spec: `CalculatePhaseMapping.calculate` — a candidate
whose address is a key of the destination map has its target address
rewritten; amounts unaffected. -/
def calculatePhaseMapping (payment_items : List RewardLog)
    (dest_map : List (String × String)) : List RewardLog :=
  payment_items.map (fun pi =>
    match dest_map.lookup pi.address with
    | some d => { pi with address := d }
    | none => pi)

/-- Modelled from the spec: `CalculatePhaseMerge.calculate` — group candidates
by resulting address, stable by first-seen address; a group of size > 1
collapses into one item of type Merged whose `adjusted_amount` is the sum of
the contributors. -/
def calculatePhaseMerge : List RewardLog → List RewardLog
  | [] => []
  | x :: xs =>
    let same := xs.filter (fun y => y.address = x.address)
    let rest := xs.filter (fun y => ¬ y.address = x.address)
    (if same.isEmpty then x
     else { x with
              type := TYPE_MERGED,
              adjusted_amount :=
                x.adjusted_amount + (same.map (·.adjusted_amount)).sum })
      :: calculatePhaseMerge rest
termination_by l => l.length
decreasing_by
  simp only [List.length_cons]
  exact Nat.lt_succ_of_le (List.length_filter_le _ _)

/-- Modelled from the spec: `CalculatePhaseZeroBalance.calculate` — a
zero-balance destination is dropped when `reactivate_zeroed` is false and
kept when it is true. -/
def calculatePhaseZeroBalance (balance : String → Nat)
    (payment_items : List RewardLog) (reactivate_zeroed : Bool) :
    List RewardLog :=
  if reactivate_zeroed then payment_items
  else payment_items.filter (fun pi => ¬ balance pi.address = 0)

/-- Modelled from the spec: type priority of the sequencing comparator
(Founder < Owner < Delegator < Merged). -/
def type_priority (t : String) : Nat :=
  if t = TYPE_FOUNDER then 0
  else if t = TYPE_OWNER then 1
  else if t = TYPE_DELEGATOR then 2
  else 3

/-- Modelled from the spec: `cmp_by_type_balance` as a boolean "comes before
or equal" relation — type priority first, balance-derived tiebreak. -/
def cmp_by_type_balance_le (a b : RewardLog) : Bool :=
  if type_priority a.type = type_priority b.type then
    b.staking_balance ≤ a.staking_balance
  else
    type_priority a.type < type_priority b.type

/-- Insertion step of the stable sort used to model
`payment_items.sort(key=functools.cmp_to_key(cmp_by_type_balance))`. -/
def insertSorted (le : RewardLog → RewardLog → Bool) (x : RewardLog) :
    List RewardLog → List RewardLog
  | [] => [x]
  | y :: ys => if le x y then x :: y :: ys else y :: insertSorted le x ys

/-- Sorting of the candidate list before execution. -/
def sortItems (le : RewardLog → RewardLog → Bool) (l : List RewardLog) :
    List RewardLog :=
  l.foldr (insertSorted le) []

/-- Result of `create_payment_report`: the payout partition, the files it
writes, and the value it returns (note the source reassigns `report_file`
to the failure-report path when `nb_failed > 0`). -/
structure ReportResult where
  successful_payouts : List RewardLog
  unsuccessful_payouts : List RewardLog
  canonical_file : FsPath
  failure_file : Option FsPath
  report_file : FsPath
deriving Repr, DecidableEq

/-- `PaymentConsumer.create_payment_report`. -/
def create_payment_report (payments_dir : String) (nb_failed : Nat)
    (payment_logs : List RewardLog) (payment_cycle : Nat)
    (already_paid_items : List RewardLog) : ReportResult :=
  let payouts := already_paid_items ++ payment_logs
  let successful_payouts :=
    payouts.filter (fun payout => ¬ payout.paid = PaymentStatus.fail)
  let unsuccessful_payouts :=
    payouts.filter (fun payout => payout.paid = PaymentStatus.fail)
  let report_file := get_payment_report_file_path payments_dir payment_cycle 0
  if 0 < nb_failed then
    let report_file2 :=
      get_payment_report_file_path payments_dir payment_cycle nb_failed
    { successful_payouts := successful_payouts,
      unsuccessful_payouts := unsuccessful_payouts,
      canonical_file := report_file,
      failure_file := some report_file2,
      report_file := report_file2 }
  else
    { successful_payouts := successful_payouts,
      unsuccessful_payouts := unsuccessful_payouts,
      canonical_file := report_file,
      failure_file := none,
      report_file := report_file }

/-- `PaymentConsumer.clean_failed_payment_reports`: remove the assumed
failure report (`failCount = 1`) only when the run succeeded; remove its
busy-marker whenever it exists. -/
def clean_failed_payment_reports (fs : List FsPath) (payments_dir : String)
    (payment_cycle : Nat) (success : Bool) : List FsPath :=
  let failure_report_file :=
    get_payment_report_file_path payments_dir payment_cycle 1
  let fs1 :=
    if success = true ∧ failure_report_file ∈ fs then
      fs.filter (fun p => ¬ p = failure_report_file)
    else fs
  let failure_report_busy_file := get_busy_file failure_report_file
  if failure_report_busy_file ∈ fs1 then
    fs1.filter (fun p => ¬ p = failure_report_busy_file)
  else fs1

/-- The parsed calculation report
(`CsvCalculationFileParser.parse(report_file, baking_address)`). -/
structure CalcReport where
  rows : List RewardLog
  total_amount : Nat
  rewards_type : String
  early_payout : Bool
deriving Repr, DecidableEq

/-- The write-back call
(`CsvCalculationFileParser.write(rows, path, total, type, baker, early, True)`). -/
structure CalcWriteCall where
  rows : List RewardLog
  path : FsPath
  total_amount : Nat
  rewards_type : String
  baking_address : String
  early_payout : Bool
  is_reconciliation : Bool
deriving Repr, DecidableEq

/-- `payment_logs_dict`: a Python dict built by `__setitem__` in list order,
so a later log with the same address overwrites an earlier one. -/
def payment_logs_lookup (payment_logs : List RewardLog) (a : String) :
    Option RewardLog :=
  payment_logs.foldl
    (fun acc pl => if pl.address = a then some pl else acc) none

/-- The per-row update of `add_transaction_fees_to_calculation_report`:
overwrite only the two transaction-fee fields of a matched row; append a
note to the description of an unmatched row. -/
def reconcile_row (lookup : String → Option RewardLog) (rl : RewardLog) :
    RewardLog :=
  match lookup rl.address with
  | some pl =>
    { rl with
        delegate_transaction_fee := pl.delegate_transaction_fee,
        delegator_transaction_fee := pl.delegator_transaction_fee }
  | none => { rl with desc := rl.desc ++ "Not in payment log. " }

/-- `PaymentConsumer.add_transaction_fees_to_calculation_report`.  When
`calculations_dir` is `None` the `if` body is skipped and the trailing
`return report_file` reads a never-assigned local: an `UnboundLocalError`,
modelled as `.error ()`. -/
def add_transaction_fees_to_calculation_report
    (calculations_dir : Option String) (baking_address : String)
    (calc_report : CalcReport) (payment_logs : List RewardLog)
    (payment_cycle : Nat) : Except Unit CalcWriteCall :=
  match calculations_dir with
  | some cdir =>
    let report_file := get_calculation_report_file_path cdir payment_cycle
    let rows :=
      calc_report.rows.map (reconcile_row (payment_logs_lookup payment_logs))
    .ok { rows := rows,
          path := report_file,
          total_amount := calc_report.total_amount,
          rewards_type := calc_report.rewards_type,
          baking_address := baking_address,
          early_payout := calc_report.early_payout,
          is_reconciliation := true }
  | none => .error ()

/-- Modelled from the spec: `uuid3(NAMESPACE_URL, key_name)` — a stable
pseudonymous id derived deterministically from the payer's key identity. -/
def uuid3_url (key_name : String) : String := "uuid3-url-" ++ key_name

/-- The keyed stats record built by `create_stats_dict`. -/
structure StatsDict where
  uuid : String
  cycle : Nat
  network : String
  total_amount : Nat
  nb_pay : Nat
  nb_failed : Nat
  nb_unknown : Nat
  total_attmpts : Nat
  nb_founders : Nat
  nb_owners : Nat
  nb_merged : Nat
  nb_delegators : Nat
  pay_xfer_fee : Nat
  pay_ra_fee : Nat
  rewards_type : String
  trdver : String
  m_run : Nat
  m_prov : String
  m_relov : Int
  m_offset : Int
  m_docker : Nat
deriving Repr, DecidableEq

/-- `PaymentConsumer.create_stats_dict`.  `self.args.network` is read
unconditionally, so the function is modelled for a present `args`; Python's
`int(sum(...) / MUTEZ_PER_TEZ)` (truncation of a non-negative quotient) is
modelled as natural division. -/
def create_stats_dict (args : Args)
    (delegator_pays_xfer_fee delegator_pays_ra_fee : Bool)
    (rewards_type : RewardsType) (key_name : String)
    (nb_failed nb_unknown payment_cycle : Nat)
    (payment_logs : List RewardLog) (total_attempts : Nat) : StatsDict :=
  let n_f_type := (payment_logs.filter (fun pl => pl.type = TYPE_FOUNDER)).length
  let n_o_type := (payment_logs.filter (fun pl => pl.type = TYPE_OWNER)).length
  let n_d_type := (payment_logs.filter (fun pl => pl.type = TYPE_DELEGATOR)).length
  let n_m_type := (payment_logs.filter (fun pl => pl.type = TYPE_MERGED)).length
  { uuid := uuid3_url key_name,
    cycle := payment_cycle,
    network := args.network,
    total_amount :=
      (payment_logs.map (·.adjusted_amount)).sum / MUTEZ_PER_TEZ,
    nb_pay := payment_logs.length,
    nb_failed := nb_failed,
    nb_unknown := nb_unknown,
    total_attmpts := total_attempts,
    nb_founders := n_f_type,
    nb_owners := n_o_type,
    nb_merged := n_m_type,
    nb_delegators := n_d_type,
    pay_xfer_fee := if delegator_pays_xfer_fee then 1 else 0,
    pay_ra_fee := if delegator_pays_ra_fee then 1 else 0,
    rewards_type :=
      if rewards_type.isIdeal then "I"
      else if rewards_type.isActual then "A"
      else "A",
    trdver := VERSION,
    m_run := if args.background_service then 1 else 0,
    m_prov := args.reward_data_provider,
    m_relov := if args.release_override = 0 then 0 else args.release_override,
    m_offset := if args.payment_offset = 0 then 0 else args.payment_offset,
    m_docker := if args.docker then 1 else 0 }

/-- The admin notification
(`plugins_manager.send_admin_notification(subject, message, [report_file], payment_logs)`). -/
structure AdminNotification where
  subject : String
  message : String
  attachments : List FsPath
  raw_logs : List RewardLog
deriving Repr, DecidableEq

/-- The subject string built in step 8 of `_consume_batch`. -/
def payout_subject (pymnt_cycle nb_failed nb_unknown : Nat) : String :=
  let subject := "Reward Payouts for Cycle " ++ toString pymnt_cycle
  let status :=
    if nb_failed = 0 ∧ nb_unknown = 0 then "Completed Successfully!"
    else
      let s := "attempted"
      let s :=
        if 0 < nb_failed then s ++ ", " ++ toString nb_failed ++ " failed"
        else s
      if 0 < nb_unknown then
        s ++ ", " ++ toString nb_unknown ++ " injected but final state not known"
      else s
  subject ++ " " ++ status

/-- The admin message built in step 8 of `_consume_batch`. -/
def runway_message (number_future_payable_cycles : Nat) : String :=
  "The current payout account balance is expected to last for the next "
    ++ toString number_future_payable_cycles ++ " cycle(s)!"

/-- The observable effects of one `_consume_batch` call.  Fields that the
source only reaches after the reconcile step are guarded by `raised`,
because an exception there is caught at the batch boundary and skips them. -/
structure ConsumeEffects where
  result : Bool
  raised : Bool
  fs : List FsPath
  pay_called : Option (List RewardLog)
  canonical_write : Option (FsPath × List RewardLog)
  failure_write : Option (FsPath × List RewardLog)
  report_file : Option FsPath
  calc_write : Option CalcWriteCall
  cleanup_ran : Bool
  producer_callback : Option Bool
  payout_notification : Option (Nat × Nat × Nat)
  admin_notification : Option AdminNotification
  stats : Option StatsDict
deriving Repr, DecidableEq

/-- The effects of the paths that return before any payment processing. -/
def ConsumeEffects.trivial (result : Bool) (fs : List FsPath) :
    ConsumeEffects :=
  { result := result,
    raised := false,
    fs := fs,
    pay_called := none,
    canonical_write := none,
    failure_write := none,
    report_file := none,
    calc_write := none,
    cleanup_ran := false,
    producer_callback := none,
    payout_notification := none,
    admin_notification := none,
    stats := none }

/-- `PaymentConsumer._consume_batch`.  External collaborators enter as
arguments: `balance` the destination-balance oracle of the zero-balance
phase, `calc` the parsed calculation report, `pay_result` what
`BatchPayer.pay` returns for the sequenced candidate list. -/
def consume_batch (cfg : ConsumerConfig) (balance : String → Nat)
    (calc_report : CalcReport) (fs : List FsPath) (payment_batch : Batch)
    (pay_result : PayResult) : ConsumeEffects :=
  match payment_batch.batch with
  | [] => ConsumeEffects.trivial true fs
  | first :: _ =>
    if first.type = EXIT_PAYMENT_TYPE then ConsumeEffects.trivial false fs
    else
      let pymnt_cycle := payment_batch.cycle
      let payable_items := payment_batch.batch.filter (·.payable)
      let already_paid_items :=
        payable_items.filter (fun pi => pi.paid.is_processed)
      let payment_items1 :=
        payable_items.filter (fun pi => ¬ pi.paid.is_processed)
      let payment_items2 := calculatePhaseMapping payment_items1 cfg.dest_map
      let payment_items3 := calculatePhaseMerge payment_items2
      let payment_items4 :=
        calculatePhaseZeroBalance balance payment_items3 cfg.reactivate_zeroed
      let pay_input := sortItems cmp_by_type_balance_le payment_items4
      let payment_logs := pay_result.payment_logs
      let counts := count_and_log_failed payment_logs
      let nb_paid := counts.1
      let nb_failed := counts.2.1
      let nb_unknown := counts.2.2
      let rep :=
        create_payment_report cfg.payments_dir nb_failed payment_logs
          pymnt_cycle already_paid_items
      let fs1 := add_file fs rep.canonical_file
      let fs2 :=
        match rep.failure_file with
        | some f => add_file fs1 f
        | none => fs1
      let fees_result :=
        add_transaction_fees_to_calculation_report cfg.calculations_dir
          cfg.baking_address calc_report payment_logs pymnt_cycle
      let raised : Bool :=
        decide (0 < pay_result.total_attempts) && fees_result.toOption.isNone
      { result := true,
        raised := raised,
        fs :=
          if raised then fs2
          else
            clean_failed_payment_reports fs2 cfg.payments_dir pymnt_cycle
              (nb_failed == 0),
        pay_called := some pay_input,
        canonical_write := some (rep.canonical_file, rep.successful_payouts),
        failure_write :=
          rep.failure_file.map (fun f => (f, rep.unsuccessful_payouts)),
        report_file := some rep.report_file,
        calc_write :=
          if raised then none
          else if 0 < pay_result.total_attempts then fees_result.toOption
          else none,
        cleanup_ran := !raised,
        producer_callback :=
          if raised then none
          else if payment_batch.has_producer_ref then some (nb_failed == 0)
          else none,
        payout_notification :=
          if raised then none
          else if 0 < pay_result.total_attempts then
            some (pymnt_cycle, pay_result.total_payout_amount,
              nb_paid + nb_failed + nb_unknown)
          else none,
        admin_notification :=
          if raised then none
          else if 0 < pay_result.total_attempts then
            some { subject := payout_subject pymnt_cycle nb_failed nb_unknown,
                   message :=
                     runway_message pay_result.number_future_payable_cycles,
                   attachments := [rep.report_file],
                   raw_logs := payment_logs }
          else none,
        stats :=
          if raised then none
          else
            match cfg.args with
            | some a =>
              if cfg.publish_stats ∧ cfg.dry_run = false then
                some (create_stats_dict a cfg.delegator_pays_xfer_fee
                  cfg.delegator_pays_ra_fee cfg.rewards_type cfg.key_name
                  nb_failed nb_unknown pymnt_cycle payment_logs
                  pay_result.total_attempts)
              else none
            | none => none }

/-- `PaymentConsumer.run`, as the list of batches the worker consumes from a
stream of loop inputs (each a disk-full observation followed by a dequeued
batch).  `consume` abstracts `_consume_batch`'s continue/terminate result;
`event_is_set` is `self.event` — in scope, but the loop body never reads
it. -/
def run_loop (consume : Batch → Bool) (event_is_set : Bool) :
    List (Bool × Batch) → List Batch
  | [] => []
  | (disk_full, b) :: rest =>
    if disk_full then []
    else b :: (if consume b then run_loop consume event_is_set rest else [])

/-- The worker's cooperative-cancellation state (`self.event`). -/
structure Worker where
  event : Bool
deriving Repr, DecidableEq

/-- `PaymentConsumer.stop`: set the event flag. -/
def Worker.stop (w : Worker) : Worker := { w with event := true }

/-- The list handed to `BatchPayer.pay`, when execution was reached. -/
def pay_input_of (e : ConsumeEffects) : List RewardLog := e.pay_called.getD []

/-- The rows written to the canonical (failCount = 0) report. -/
def canonical_items (e : ConsumeEffects) : List RewardLog :=
  (e.canonical_write.map Prod.snd).getD []

/-- The rows written to the failure report, when one was written. -/
def failure_items (e : ConsumeEffects) : List RewardLog :=
  (e.failure_write.map Prod.snd).getD []

/-- The attachment list of the admin notification, when one was sent. -/
def admin_attachments (e : ConsumeEffects) : List FsPath :=
  (e.admin_notification.map (·.attachments)).getD []

/-! ### Concrete sample data for witnesses and counterexamples -/

/-- A destination-balance oracle that reports every account funded. -/
def bal1 : String → Nat := fun _ => 1

def argsStd : Args :=
  { network := "mainnet", background_service := false,
    reward_data_provider := "prov", release_override := 0,
    payment_offset := 0, docker := false }

def cfgStd : ConsumerConfig :=
  { payments_dir := "pd", key_name := "k", dry_run := false,
    reactivate_zeroed := true, delegator_pays_ra_fee := true,
    delegator_pays_xfer_fee := true, dest_map := [], publish_stats := true,
    calculations_dir := some "cd", baking_address := "baker",
    rewards_type := RewardsType.actual, args := some argsStd }

/-- `cfgStd` with no calculations directory (the `calculations_dir=None`
construction of claim C5). -/
def cfgNoCalc : ConsumerConfig := { cfgStd with calculations_dir := none }

/-- `cfgStd` with no CLI args object. -/
def cfgNoArgs : ConsumerConfig := { cfgStd with args := none }

def calcR0 : CalcReport :=
  { rows := [], total_amount := 0, rewards_type := "actual",
    early_payout := false }

def itemUnpaid : RewardLog :=
  { address := "a1", type := "D", adjusted_amount := 2000000,
    staking_balance := 5, payable := true, paid := PaymentStatus.unpaid,
    desc := "", delegate_transaction_fee := 0,
    delegator_transaction_fee := 0 }

def itemPaidLog : RewardLog := { itemUnpaid with paid := PaymentStatus.paid }

def itemFailLog : RewardLog := { itemUnpaid with paid := PaymentStatus.fail }

/-- A non-payable item that already carries terminal Paid status. -/
def itemNPP : RewardLog :=
  { itemUnpaid with payable := false, paid := PaymentStatus.paid }

def batchStd : Batch :=
  { cycle := 100, batch := [itemUnpaid], has_producer_ref := true }

/-- A batch whose only entering item is non-payable and already Paid. -/
def batchNPP : Batch :=
  { cycle := 100, batch := [itemNPP], has_producer_ref := false }

/-- A batch carrying one payable, already-Paid item. -/
def batchCarry : Batch :=
  { cycle := 100, batch := [itemPaidLog], has_producer_ref := false }

def payEmpty : PayResult :=
  { payment_logs := [], total_attempts := 0, total_payout_amount := 0,
    number_future_payable_cycles := 0 }

def payOnePaid : PayResult :=
  { payment_logs := [itemPaidLog], total_attempts := 1,
    total_payout_amount := 2000000, number_future_payable_cycles := 3 }

def payOneFail : PayResult :=
  { payment_logs := [itemFailLog], total_attempts := 1,
    total_payout_amount := 0, number_future_payable_cycles := 3 }

/-! ### Helper lemmas -/

/-- Membership after a modelled file write. -/
theorem mem_add_file (fs : List FsPath) (q p : FsPath) :
    p ∈ add_file fs q ↔ p ∈ fs ∨ p = q := by
  unfold add_file
  split
  · constructor
    · exact fun h => Or.inl h
    · rintro (h | rfl) <;> assumption
  · simp [List.mem_append]

/-- Removing a file only when it is present. -/
theorem mem_remove_if_present (fs : List FsPath) (q p : FsPath) :
    (p ∈ if q ∈ fs then fs.filter (fun r => ¬ r = q) else fs) ↔
      p ∈ fs ∧ ¬ p = q := by
  split
  · simp [List.mem_filter]
  · rename_i hq
    constructor
    · intro hp
      exact ⟨hp, fun he => hq (he ▸ hp)⟩
    · exact fun h => h.1

/-- Removing a file only when the run succeeded and it is present. -/
theorem mem_remove_if_success (fs : List FsPath) (q p : FsPath)
    (success : Bool) :
    (p ∈ if success = true ∧ q ∈ fs then fs.filter (fun r => ¬ r = q)
        else fs) ↔
      p ∈ fs ∧ ¬(success = true ∧ p = q) := by
  split
  · rename_i hc
    simp [List.mem_filter, hc.1]
  · rename_i hc
    constructor
    · intro hp
      exact ⟨hp, fun h => hc ⟨h.1, h.2 ▸ hp⟩⟩
    · exact fun h => h.1

/-- Membership characterization of the cleanup step: the `failCount=1`
failure report survives iff it was present and the run did not succeed;
the busy-marker never survives; nothing else is touched. -/
theorem mem_clean_failed_payment_reports (fs : List FsPath) (dir : String)
    (c : Nat) (success : Bool) (p : FsPath) :
    p ∈ clean_failed_payment_reports fs dir c success ↔
      p ∈ fs ∧ ¬(success = true ∧ p = FsPath.report dir c 1) ∧
        ¬ p = FsPath.busy dir c 1 := by
  unfold clean_failed_payment_reports
  simp only [get_payment_report_file_path, get_busy_file]
  rw [mem_remove_if_present, mem_remove_if_success]
  tauto

/-- A processed status is never `fail`. -/
theorem PaymentStatus.ne_fail_of_is_processed {s : PaymentStatus}
    (h : s.is_processed = true) : s ≠ PaymentStatus.fail := by
  cases s <;> simp_all [PaymentStatus.is_processed]

/-- The accumulator form of the tally loop. -/
theorem count_and_log_failed_foldl (l : List RewardLog) (a b c : Nat) :
    l.foldl
      (fun counts pymnt_itm =>
        if pymnt_itm.paid = PaymentStatus.paid then
          (counts.1 + 1, counts.2.1, counts.2.2)
        else if pymnt_itm.paid = PaymentStatus.fail then
          (counts.1, counts.2.1 + 1, counts.2.2)
        else if pymnt_itm.paid = PaymentStatus.injected then
          (counts.1, counts.2.1, counts.2.2 + 1)
        else counts)
      (a, b, c) =
      (a + (l.filter (fun pi => pi.paid = PaymentStatus.paid)).length,
       b + (l.filter (fun pi => pi.paid = PaymentStatus.fail)).length,
       c + (l.filter (fun pi => pi.paid = PaymentStatus.injected)).length) := by
  induction l generalizing a b c with
  | nil => simp
  | cons x xs ih =>
    cases hx : x.paid <;>
      simp only [List.foldl_cons, List.filter_cons, hx] <;>
      simp only [ih] <;>
      simp [Prod.ext_iff] <;> omega

/-- `count_and_log_failed` tallies exactly the per-status filters. -/
theorem count_and_log_failed_eq (l : List RewardLog) :
    count_and_log_failed l =
      ((l.filter (fun pi => pi.paid = PaymentStatus.paid)).length,
       (l.filter (fun pi => pi.paid = PaymentStatus.fail)).length,
       (l.filter (fun pi => pi.paid = PaymentStatus.injected)).length) := by
  have h := count_and_log_failed_foldl l 0 0 0
  simpa [count_and_log_failed] using h

/-- Membership across one insertion of the modelled sort. -/
theorem mem_insertSorted (le : RewardLog → RewardLog → Bool)
    (x a : RewardLog) :
    ∀ l, a ∈ insertSorted le x l ↔ a = x ∨ a ∈ l := by
  intro l
  induction l with
  | nil => simp [insertSorted]
  | cons y ys ih =>
    simp only [insertSorted]
    split
    · simp
    · simp [ih]
      tauto

/-- Membership is invariant under the modelled sort. -/
theorem mem_sortItems (le : RewardLog → RewardLog → Bool) (a : RewardLog) :
    ∀ l, a ∈ sortItems le l ↔ a ∈ l := by
  intro l
  induction l with
  | nil => simp [sortItems]
  | cons x xs ih =>
    simp only [sortItems, List.foldr_cons] at *
    rw [mem_insertSorted, ih]
    simp

/-- The remap phase preserves each item's paid status. -/
theorem paid_of_mem_calculatePhaseMapping {y : RewardLog}
    {l : List RewardLog} {m : List (String × String)}
    (h : y ∈ calculatePhaseMapping l m) : ∃ x ∈ l, y.paid = x.paid := by
  simp only [calculatePhaseMapping, List.mem_map] at h
  obtain ⟨x, hx, hy⟩ := h
  refine ⟨x, hx, ?_⟩
  cases hm : m.lookup x.address <;> rw [hm] at hy <;> simp [← hy]

/-- The merge phase takes each output item's paid status from an input
item (the first of its address group). -/
theorem paid_of_mem_calculatePhaseMerge :
    ∀ l : List RewardLog, ∀ y ∈ calculatePhaseMerge l,
      ∃ x ∈ l, y.paid = x.paid := by
  intro l
  induction l using calculatePhaseMerge.induct with
  | case1 => intro y hy; simp [calculatePhaseMerge] at hy
  | case2 x xs rest ih =>
    intro y hy
    rw [calculatePhaseMerge] at hy
    rcases List.mem_cons.mp hy with hy | hy
    · refine ⟨x, List.mem_cons_self x xs, ?_⟩
      rw [hy]
      split <;> simp
    · obtain ⟨x', hx', hpaid⟩ := ih y hy
      exact ⟨x', List.mem_cons_of_mem _ (List.mem_of_mem_filter hx'), hpaid⟩

/-- The zero-balance phase only drops items. -/
theorem mem_of_mem_calculatePhaseZeroBalance {balance : String → Nat}
    {l : List RewardLog} {r : Bool} {y : RewardLog}
    (h : y ∈ calculatePhaseZeroBalance balance l r) : y ∈ l := by
  unfold calculatePhaseZeroBalance at h
  split at h
  · exact h
  · exact List.mem_of_mem_filter h

/-- Every item of the sequenced candidate list (the list handed to
`BatchPayer.pay`) derives its paid status from one of the unprocessed
candidates, hence is itself unprocessed. -/
theorem pipeline_unprocessed (m : List (String × String)) (r : Bool)
    (balance : String → Nat) (l : List RewardLog)
    (hl : ∀ x ∈ l, x.paid.is_processed = false) :
    ∀ y ∈ sortItems cmp_by_type_balance_le
        (calculatePhaseZeroBalance balance
          (calculatePhaseMerge (calculatePhaseMapping l m)) r),
      y.paid.is_processed = false := by
  intro y hy
  rw [mem_sortItems] at hy
  have hy2 := mem_of_mem_calculatePhaseZeroBalance hy
  obtain ⟨x2, hx2, hp2⟩ := paid_of_mem_calculatePhaseMerge _ y hy2
  obtain ⟨x1, hx1, hp1⟩ := paid_of_mem_calculatePhaseMapping hx2
  rw [hp2, hp1]
  exact hl x1 hx1

/-- Chaining the payable filter with the processed filter. -/
theorem filter_payable_processed (items : List RewardLog) :
    (items.filter (·.payable)).filter (fun pi => pi.paid.is_processed) =
      items.filter (fun pi => pi.payable && pi.paid.is_processed) := by
  induction items with
  | nil => rfl
  | cons x xs ih =>
    by_cases h1 : x.payable <;> by_cases h2 : x.paid.is_processed = true <;>
      simp [List.filter_cons, h1, h2, ih]

/-- What `create_payment_report` computes when all carried-over items have a
terminal (processed) status — as they do at its call site. -/
theorem create_payment_report_spec (dir : String) (nb_failed c : Nat)
    (logs already : List RewardLog)
    (hpro : ∀ a ∈ already, a.paid.is_processed = true) :
    (create_payment_report dir nb_failed logs c already).successful_payouts =
      already ++ logs.filter (fun p => ¬ p.paid = PaymentStatus.fail) ∧
    (create_payment_report dir nb_failed logs c already).unsuccessful_payouts =
      logs.filter (fun p => p.paid = PaymentStatus.fail) ∧
    (create_payment_report dir nb_failed logs c already).canonical_file =
      get_payment_report_file_path dir c 0 ∧
    (create_payment_report dir nb_failed logs c already).failure_file =
      (if 0 < nb_failed then
        some (get_payment_report_file_path dir c nb_failed) else none) ∧
    (create_payment_report dir nb_failed logs c already).report_file =
      get_payment_report_file_path dir c nb_failed := by
  have hsucc :
      (already ++ logs).filter (fun p => ¬ p.paid = PaymentStatus.fail) =
        already ++ logs.filter (fun p => ¬ p.paid = PaymentStatus.fail) := by
    rw [List.filter_append]
    congr 1
    rw [List.filter_eq_self]
    intro a ha
    simpa using PaymentStatus.ne_fail_of_is_processed (hpro a ha)
  have hfail :
      (already ++ logs).filter (fun p => p.paid = PaymentStatus.fail) =
        logs.filter (fun p => p.paid = PaymentStatus.fail) := by
    rw [List.filter_append]
    have : already.filter (fun p => p.paid = PaymentStatus.fail) = [] := by
      rw [List.filter_eq_nil_iff]
      intro a ha
      simpa using PaymentStatus.ne_fail_of_is_processed (hpro a ha)
    rw [this, List.nil_append]
  unfold create_payment_report
  split
  · rename_i hpos
    exact ⟨hsucc, hfail, rfl, by simp [hpos], rfl⟩
  · rename_i hpos
    have hz : nb_failed = 0 := by omega
    exact ⟨hsucc, hfail, rfl, by simp [hpos], by rw [hz]⟩

/-! ### Claim theorems -/

/-- C4 counterexample: on a run with `failed > 0` (here exactly one Fail
outcome) the busy-marker of the cycle, present when the batch started, is
nonetheless removed by the cleanup step. -/
theorem C4_counterexample :
    (count_and_log_failed payOneFail.payment_logs).2.1 = 1 ∧
    FsPath.busy "pd" 100 1 ∈ [FsPath.busy "pd" 100 1] ∧
    FsPath.busy "pd" 100 1 ∉
      (consume_batch cfgStd bal1 calcR0 [FsPath.busy "pd" 100 1] batchStd
        payOneFail).fs := by
  decide

/-- C4 (amended): the cleanup step removes the `failCount=1` failure report
iff the run had `failed==0` (and the file exists); the busy-marker of that
path is removed whenever it exists, regardless of success; no other file is
touched. -/
theorem C4_amended_cleanup (fs : List FsPath) (dir : String) (c : Nat)
    (success : Bool) :
    FsPath.busy dir c 1 ∉ clean_failed_payment_reports fs dir c success ∧
    (FsPath.report dir c 1 ∈ clean_failed_payment_reports fs dir c success ↔
      FsPath.report dir c 1 ∈ fs ∧ success = false) ∧
    (∀ p : FsPath, ¬ p = FsPath.report dir c 1 → ¬ p = FsPath.busy dir c 1 →
      (p ∈ clean_failed_payment_reports fs dir c success ↔ p ∈ fs)) := by
  refine ⟨?_, ?_, ?_⟩
  · rw [mem_clean_failed_payment_reports]
    tauto
  · rw [mem_clean_failed_payment_reports]
    cases success <;> simp
  · intro p hp1 hp2
    rw [mem_clean_failed_payment_reports]
    tauto

/-- C4 amended, witnessed at a concrete cleanup call: an unrelated file
survives, the busy-marker does not, and the failure report survives a
non-successful run. -/
theorem C4_amended_cleanup_witness :
    ¬ FsPath.calc_file "d" 3 = FsPath.report "d" 3 1 ∧
    (FsPath.calc_file "d" 3 ∈
        clean_failed_payment_reports
          [FsPath.calc_file "d" 3, FsPath.busy "d" 3 1, FsPath.report "d" 3 1]
          "d" 3 false ↔
      FsPath.calc_file "d" 3 ∈
        [FsPath.calc_file "d" 3, FsPath.busy "d" 3 1,
          FsPath.report "d" 3 1]) ∧
    FsPath.busy "d" 3 1 ∉
      clean_failed_payment_reports
        [FsPath.calc_file "d" 3, FsPath.busy "d" 3 1, FsPath.report "d" 3 1]
        "d" 3 false :=
  ⟨by decide,
   (C4_amended_cleanup
      [FsPath.calc_file "d" 3, FsPath.busy "d" 3 1, FsPath.report "d" 3 1]
      "d" 3 false).2.2 (FsPath.calc_file "d" 3) (by decide) (by decide),
   (C4_amended_cleanup
      [FsPath.calc_file "d" 3, FsPath.busy "d" 3 1, FsPath.report "d" 3 1]
      "d" 3 false).1⟩

/-- C7 counterexample: with the cooperative flag already set by `stop()`,
the worker dequeues and fully consumes two further batches — it does not
terminate at the next loop boundary. -/
theorem C7_counterexample :
    (Worker.stop { event := false }).event = true ∧
    run_loop (fun _ => true) (Worker.stop { event := false }).event
        [(false, batchStd), (false, batchCarry)] = [batchStd, batchCarry] ∧
    batchCarry ∈
      run_loop (fun _ => true) (Worker.stop { event := false }).event
        [(false, batchStd), (false, batchCarry)] := by
  decide

/-- C7 (amended): `stop()` sets the cooperative flag, but the run loop never
reads it — the consumed batches are identical with and without `stop()`, and
a queue of ordinary batches is consumed in full (each in-flight batch runs
to completion); the loop ends only via disk-full or a terminating consume
result. -/
theorem C7_amended_stop_unobserved (w : Worker) (consume : Batch → Bool)
    (inputs : List (Bool × Batch)) (bs : List Batch) :
    run_loop consume (w.stop).event inputs =
      run_loop consume w.event inputs ∧
    run_loop (fun _ => true) (w.stop).event
        (bs.map (fun b => (false, b))) = bs := by
  constructor
  · induction inputs with
    | nil => rfl
    | cons i rest ih =>
      obtain ⟨df, b⟩ := i
      simp only [run_loop, ih]
  · induction bs with
    | nil => rfl
    | cons b rest ih =>
      simp only [List.map_cons, run_loop, if_true, ih]
      simp

/-- C9: the reconcile step overwrites only the delegate and delegator
transaction-fee fields of report rows whose address matches an outcome
item, leaves every other field of matched rows (including the reward
amount) unchanged, appends a note to unmatched rows while leaving their
fee fields unchanged, and writes the report back preserving the total
amount, the reward-type tag, and the early-payout flag. -/
theorem C9_reconcile_frame (cdir baking_address : String)
    (calc_report : CalcReport) (payment_logs : List RewardLog)
    (payment_cycle : Nat) (w : CalcWriteCall)
    (hw : add_transaction_fees_to_calculation_report (some cdir)
        baking_address calc_report payment_logs payment_cycle =
      Except.ok w) :
    (w.total_amount = calc_report.total_amount ∧
     w.rewards_type = calc_report.rewards_type ∧
     w.early_payout = calc_report.early_payout) ∧
    w.rows = calc_report.rows.map
      (reconcile_row (payment_logs_lookup payment_logs)) ∧
    (∀ rl pl, payment_logs_lookup payment_logs rl.address = some pl →
      (reconcile_row (payment_logs_lookup payment_logs)
          rl).delegate_transaction_fee = pl.delegate_transaction_fee ∧
      (reconcile_row (payment_logs_lookup payment_logs)
          rl).delegator_transaction_fee = pl.delegator_transaction_fee ∧
      (reconcile_row (payment_logs_lookup payment_logs) rl).address =
        rl.address ∧
      (reconcile_row (payment_logs_lookup payment_logs) rl).type = rl.type ∧
      (reconcile_row (payment_logs_lookup payment_logs)
          rl).adjusted_amount = rl.adjusted_amount ∧
      (reconcile_row (payment_logs_lookup payment_logs)
          rl).staking_balance = rl.staking_balance ∧
      (reconcile_row (payment_logs_lookup payment_logs) rl).payable =
        rl.payable ∧
      (reconcile_row (payment_logs_lookup payment_logs) rl).paid = rl.paid ∧
      (reconcile_row (payment_logs_lookup payment_logs) rl).desc =
        rl.desc) ∧
    (∀ rl, payment_logs_lookup payment_logs rl.address = none →
      (reconcile_row (payment_logs_lookup payment_logs) rl).desc =
        rl.desc ++ "Not in payment log. " ∧
      (reconcile_row (payment_logs_lookup payment_logs)
          rl).delegate_transaction_fee = rl.delegate_transaction_fee ∧
      (reconcile_row (payment_logs_lookup payment_logs)
          rl).delegator_transaction_fee = rl.delegator_transaction_fee ∧
      (reconcile_row (payment_logs_lookup payment_logs) rl).address =
        rl.address ∧
      (reconcile_row (payment_logs_lookup payment_logs) rl).type = rl.type ∧
      (reconcile_row (payment_logs_lookup payment_logs)
          rl).adjusted_amount = rl.adjusted_amount ∧
      (reconcile_row (payment_logs_lookup payment_logs)
          rl).staking_balance = rl.staking_balance ∧
      (reconcile_row (payment_logs_lookup payment_logs) rl).payable =
        rl.payable ∧
      (reconcile_row (payment_logs_lookup payment_logs) rl).paid =
        rl.paid) := by
  simp only [add_transaction_fees_to_calculation_report,
    Except.ok.injEq] at hw
  subst hw
  refine ⟨⟨rfl, rfl, rfl⟩, rfl, ?_, ?_⟩
  · intro rl pl h
    simp [reconcile_row, h]
  · intro rl h
    simp [reconcile_row, h]

/-- C9 witnessed at a concrete report and outcome list: the hypotheses of
`C9_reconcile_frame` hold and a matched row takes exactly the outcome
item's delegate fee while keeping its reward amount. -/
theorem C9_reconcile_frame_witness :
    payment_logs_lookup [itemPaidLog] itemUnpaid.address =
      some itemPaidLog ∧
    (reconcile_row (payment_logs_lookup [itemPaidLog])
        itemUnpaid).delegate_transaction_fee =
      itemPaidLog.delegate_transaction_fee ∧
    (reconcile_row (payment_logs_lookup [itemPaidLog])
        itemUnpaid).adjusted_amount = itemUnpaid.adjusted_amount :=
  ⟨by decide,
   ((C9_reconcile_frame "cd" "baker"
        { rows := [itemUnpaid], total_amount := 2000000,
          rewards_type := "actual", early_payout := false }
        [itemPaidLog] 7 _ rfl).2.2.1 itemUnpaid itemPaidLog
      (by decide)).1,
   (((C9_reconcile_frame "cd" "baker"
        { rows := [itemUnpaid], total_amount := 2000000,
          rewards_type := "actual", early_payout := false }
        [itemPaidLog] 7 _ rfl).2.2.1 itemUnpaid itemPaidLog
      (by decide)).2.2.2.2.1)⟩

/-- C10: in the stats record, `total_amount` is the truncated quotient by
`MUTEZ_PER_TEZ` of the sum of `adjusted_amount` over every outcome item —
a Fail item's amount is included — and `nb_pay` counts all outcome items
regardless of status. -/
theorem C10_stats_total_includes_failed (args : Args) (xf ra : Bool)
    (rt : RewardsType) (key : String) (nb_failed nb_unknown cycle : Nat)
    (l1 l2 : List RewardLog) (f : RewardLog) (total_attempts : Nat)
    (_hf : f.paid = PaymentStatus.fail) :
    (create_stats_dict args xf ra rt key nb_failed nb_unknown cycle
        (l1 ++ f :: l2) total_attempts).total_amount =
      ((l1.map (·.adjusted_amount)).sum + f.adjusted_amount +
        (l2.map (·.adjusted_amount)).sum) / MUTEZ_PER_TEZ ∧
    (create_stats_dict args xf ra rt key nb_failed nb_unknown cycle
        (l1 ++ f :: l2) total_attempts).nb_pay =
      l1.length + 1 + l2.length := by
  constructor
  · simp only [create_stats_dict, List.map_append, List.sum_append,
      List.map_cons, List.sum_cons]
    rw [Nat.add_assoc]
  · simp only [create_stats_dict, List.length_append, List.length_cons]
    omega

/-- C10 witnessed on a concrete outcome list containing a Fail item. -/
theorem C10_stats_total_includes_failed_witness :
    itemFailLog.paid = PaymentStatus.fail ∧
    (create_stats_dict argsStd true true RewardsType.actual "k" 1 0 100
        ([itemPaidLog] ++ itemFailLog :: []) 2).total_amount =
      (([itemPaidLog].map (·.adjusted_amount)).sum +
        itemFailLog.adjusted_amount +
        (([] : List RewardLog).map (·.adjusted_amount)).sum) /
        MUTEZ_PER_TEZ :=
  ⟨by decide,
   (C10_stats_total_includes_failed argsStd true true RewardsType.actual
      "k" 1 0 100 [itemPaidLog] [] itemFailLog 2 (by decide)).1⟩

/-- C5: on a batch with `total_attempts > 0` under a consumer constructed
with `calculations_dir = None`, the reconcile step raises an unbound-local
error on its `return` statement; failure-report cleanup, producer
callbacks, both notifications and stats emission are all skipped, while
`_consume_batch` still returns continue. -/
theorem C5_unbound_local_skips_tail (cfg : ConsumerConfig)
    (balance : String → Nat) (calc_report : CalcReport) (fs : List FsPath)
    (payment_batch : Batch) (pay_result : PayResult)
    (first : RewardLog) (rest : List RewardLog)
    (hne : payment_batch.batch = first :: rest)
    (hexit : ¬ first.type = EXIT_PAYMENT_TYPE)
    (hatt : 0 < pay_result.total_attempts)
    (hdir : cfg.calculations_dir = none) :
    (consume_batch cfg balance calc_report fs payment_batch
        pay_result).raised = true ∧
    (consume_batch cfg balance calc_report fs payment_batch
        pay_result).cleanup_ran = false ∧
    (consume_batch cfg balance calc_report fs payment_batch
        pay_result).producer_callback = none ∧
    (consume_batch cfg balance calc_report fs payment_batch
        pay_result).payout_notification = none ∧
    (consume_batch cfg balance calc_report fs payment_batch
        pay_result).admin_notification = none ∧
    (consume_batch cfg balance calc_report fs payment_batch
        pay_result).stats = none ∧
    (consume_batch cfg balance calc_report fs payment_batch
        pay_result).calc_write = none ∧
    (consume_batch cfg balance calc_report fs payment_batch
        pay_result).result = true := by
  obtain ⟨c, items, hp⟩ := payment_batch
  simp only at hne
  subst hne
  simp only [consume_batch, hexit, if_false, hdir,
    add_transaction_fees_to_calculation_report, Except.toOption,
    Option.isNone_none, Bool.and_true, decide_eq_true_eq, reduceIte]
  simp [hatt]

/-- C5 witnessed on a concrete batch: the hypotheses hold and the tail
steps are skipped while the consumer continues. -/
theorem C5_unbound_local_skips_tail_witness :
    batchStd.batch = itemUnpaid :: [] ∧
    ¬ itemUnpaid.type = EXIT_PAYMENT_TYPE ∧
    0 < payOnePaid.total_attempts ∧
    cfgNoCalc.calculations_dir = none ∧
    (consume_batch cfgNoCalc bal1 calcR0 [] batchStd payOnePaid).raised =
      true ∧
    (consume_batch cfgNoCalc bal1 calcR0 [] batchStd payOnePaid).stats =
      none :=
  ⟨rfl, by decide, by decide, rfl,
   (C5_unbound_local_skips_tail cfgNoCalc bal1 calcR0 [] batchStd
      payOnePaid itemUnpaid [] rfl (by decide) (by decide) rfl).1,
   (C5_unbound_local_skips_tail cfgNoCalc bal1 calcR0 [] batchStd
      payOnePaid itemUnpaid [] rfl (by decide) (by decide) rfl).2.2.2.2.2.1⟩

/-- C8 counterexample: stats are enabled (`publish_stats = True`) and the
run is not a dry run, yet the stats record is skipped because the consumer
was constructed with `args = None`. -/
theorem C8_counterexample :
    cfgNoArgs.publish_stats = true ∧
    cfgNoArgs.dry_run = false ∧
    (consume_batch cfgNoArgs bal1 calcR0 [] batchStd payOnePaid).stats =
      none := by
  decide

/-- C8 (amended): on a batch that reaches the end of processing, the stats
record is emitted iff stats are enabled, an args object is present, and the
run is not a dry run. -/
theorem C8_amended_stats_condition (cfg : ConsumerConfig)
    (balance : String → Nat) (calc_report : CalcReport) (fs : List FsPath)
    (payment_batch : Batch) (pay_result : PayResult)
    (first : RewardLog) (rest : List RewardLog)
    (hne : payment_batch.batch = first :: rest)
    (hexit : ¬ first.type = EXIT_PAYMENT_TYPE)
    (hnoraise : 0 < pay_result.total_attempts →
      ¬ cfg.calculations_dir = none) :
    ((consume_batch cfg balance calc_report fs payment_batch
        pay_result).stats).isSome =
      (cfg.publish_stats && cfg.args.isSome && !cfg.dry_run) := by
  obtain ⟨c, items, hp⟩ := payment_batch
  simp only at hne
  subst hne
  have hraised : (decide (0 < pay_result.total_attempts) &&
      (add_transaction_fees_to_calculation_report cfg.calculations_dir
        cfg.baking_address calc_report pay_result.payment_logs
        c).toOption.isNone) = false := by
    rcases Nat.eq_zero_or_pos pay_result.total_attempts with h | h
    · simp [h]
    · cases hcd : cfg.calculations_dir with
      | none => exact absurd hcd (hnoraise h)
      | some d =>
        simp [add_transaction_fees_to_calculation_report, Except.toOption]
  cases hargs : cfg.args with
  | none => simp [consume_batch, hexit, hraised, hargs]
  | some a =>
    by_cases hpub : cfg.publish_stats = true <;>
      by_cases hdry : cfg.dry_run = true <;>
        simp [consume_batch, hexit, hraised, hargs, hpub, hdry]

/-- C8 amended, witnessed on a concrete full run with stats enabled, args
present and no dry run. -/
theorem C8_amended_stats_condition_witness :
    batchStd.batch = itemUnpaid :: [] ∧
    ((consume_batch cfgStd bal1 calcR0 [] batchStd payOnePaid).stats).isSome =
      (cfgStd.publish_stats && cfgStd.args.isSome && !cfgStd.dry_run) :=
  ⟨rfl,
   C8_amended_stats_condition cfgStd bal1 calcR0 [] batchStd payOnePaid
     itemUnpaid [] rfl (by decide) (fun _ => by decide)⟩

/-- C6 counterexample: on a run with one Fail outcome the admin
notification's attachment is the failure-report path `(cycle, 1)`, not the
canonical `(cycle, 0)` path. -/
theorem C6_counterexample :
    (count_and_log_failed payOneFail.payment_logs).2.1 = 1 ∧
    0 < payOneFail.total_attempts ∧
    admin_attachments
        (consume_batch cfgStd bal1 calcR0 [] batchStd payOneFail) =
      [FsPath.report "pd" 100 1] ∧
    ¬ FsPath.report "pd" 100 1 = FsPath.report "pd" 100 0 := by
  decide

/-- C6 (amended): whenever `total_attempts > 0` (and the reconcile step
does not fault), the admin notification carries the report path keyed by
`(cycle, failedCount)` — the canonical failCount=0 path exactly when
`failed == 0`, the failure-report path otherwise — together with the
count-summarizing subject, the runway message, and the raw outcome list;
the payout notification carries the cycle, the total payout amount and the
paid+failed+injected count. -/
theorem C6_amended_notifications (cfg : ConsumerConfig)
    (balance : String → Nat) (calc_report : CalcReport) (fs : List FsPath)
    (payment_batch : Batch) (pay_result : PayResult)
    (first : RewardLog) (rest : List RewardLog)
    (hne : payment_batch.batch = first :: rest)
    (hexit : ¬ first.type = EXIT_PAYMENT_TYPE)
    (hatt : 0 < pay_result.total_attempts)
    (hdir : ¬ cfg.calculations_dir = none) :
    (consume_batch cfg balance calc_report fs payment_batch
        pay_result).admin_notification =
      some { subject := payout_subject payment_batch.cycle
                (count_and_log_failed pay_result.payment_logs).2.1
                (count_and_log_failed pay_result.payment_logs).2.2,
             message :=
               runway_message pay_result.number_future_payable_cycles,
             attachments :=
               [get_payment_report_file_path cfg.payments_dir
                 payment_batch.cycle
                 (count_and_log_failed pay_result.payment_logs).2.1],
             raw_logs := pay_result.payment_logs } ∧
    (consume_batch cfg balance calc_report fs payment_batch
        pay_result).payout_notification =
      some (payment_batch.cycle, pay_result.total_payout_amount,
        (count_and_log_failed pay_result.payment_logs).1 +
          (count_and_log_failed pay_result.payment_logs).2.1 +
          (count_and_log_failed pay_result.payment_logs).2.2) := by
  obtain ⟨c, items, hp⟩ := payment_batch
  simp only at hne ⊢
  subst hne
  have hraised : (decide (0 < pay_result.total_attempts) &&
      (add_transaction_fees_to_calculation_report cfg.calculations_dir
        cfg.baking_address calc_report pay_result.payment_logs
        c).toOption.isNone) = false := by
    cases hcd : cfg.calculations_dir with
    | none => exact absurd hcd hdir
    | some d =>
      simp [add_transaction_fees_to_calculation_report, Except.toOption]
  have hrep := create_payment_report_spec cfg.payments_dir
    ((count_and_log_failed pay_result.payment_logs).2.1) c
    pay_result.payment_logs
    (((first :: rest).filter (·.payable)).filter
      (fun pi => pi.paid.is_processed))
    (fun a ha => (List.mem_filter.mp ha).2)
  simp only [consume_batch, hexit, if_false, reduceIte, hraised,
    Bool.false_eq_true, hatt, if_true]
  rw [hrep.2.2.2.2]
  simp [hatt]
  cases hcd : cfg.calculations_dir with
  | none => exact absurd hcd hdir
  | some d =>
    simp [hcd, add_transaction_fees_to_calculation_report, Except.toOption]

/-- C6 amended, witnessed on a concrete fully-successful run. -/
theorem C6_amended_notifications_witness :
    0 < payOnePaid.total_attempts ∧
    (consume_batch cfgStd bal1 calcR0 [] batchStd
        payOnePaid).payout_notification =
      some (batchStd.cycle, payOnePaid.total_payout_amount,
        (count_and_log_failed payOnePaid.payment_logs).1 +
          (count_and_log_failed payOnePaid.payment_logs).2.1 +
          (count_and_log_failed payOnePaid.payment_logs).2.2) :=
  ⟨by decide,
   (C6_amended_notifications cfgStd bal1 calcR0 [] batchStd payOnePaid
      itemUnpaid [] rfl (by decide) (by decide) (by decide)).2⟩

/-- C2: the canonical report write contains exactly the already-processed
carryover items followed by the non-Fail outcome items; a failure report is
written iff there are Fail outcomes, and then it contains exactly the Fail
items. -/
theorem C2_report_partition (cfg : ConsumerConfig) (balance : String → Nat)
    (calc_report : CalcReport) (fs : List FsPath) (payment_batch : Batch)
    (pay_result : PayResult) (first : RewardLog) (rest : List RewardLog)
    (hne : payment_batch.batch = first :: rest)
    (hexit : ¬ first.type = EXIT_PAYMENT_TYPE) :
    (consume_batch cfg balance calc_report fs payment_batch
        pay_result).canonical_write =
      some (get_payment_report_file_path cfg.payments_dir
          payment_batch.cycle 0,
        payment_batch.batch.filter
            (fun pi => pi.payable && pi.paid.is_processed) ++
          pay_result.payment_logs.filter
            (fun p => ¬ p.paid = PaymentStatus.fail)) ∧
    (consume_batch cfg balance calc_report fs payment_batch
        pay_result).failure_write =
      (if 0 < (pay_result.payment_logs.filter
            (fun p => p.paid = PaymentStatus.fail)).length then
        some (get_payment_report_file_path cfg.payments_dir
            payment_batch.cycle
            (pay_result.payment_logs.filter
              (fun p => p.paid = PaymentStatus.fail)).length,
          pay_result.payment_logs.filter
            (fun p => p.paid = PaymentStatus.fail))
       else none) := by
  obtain ⟨c, items, hp⟩ := payment_batch
  simp only at hne ⊢
  subst hne
  have hcount : (count_and_log_failed pay_result.payment_logs).2.1 =
      (pay_result.payment_logs.filter
        (fun p => p.paid = PaymentStatus.fail)).length := by
    rw [count_and_log_failed_eq]
  have hrep := create_payment_report_spec cfg.payments_dir
    ((count_and_log_failed pay_result.payment_logs).2.1) c
    pay_result.payment_logs
    (((first :: rest).filter (·.payable)).filter
      (fun pi => pi.paid.is_processed))
    (fun a ha => (List.mem_filter.mp ha).2)
  simp only [consume_batch, hexit, reduceIte]
  constructor
  · rw [hrep.2.2.1, hrep.1, filter_payable_processed]
  · rw [hrep.2.2.2.1, hrep.2.1, hcount]
    rcases Nat.eq_zero_or_pos
        (pay_result.payment_logs.filter
          (fun p => p.paid = PaymentStatus.fail)).length with h | h <;>
      simp [h]

/-- C2 witnessed on a concrete run with one Fail outcome: the canonical
report holds the empty non-Fail partition and the failure report exactly
the one Fail item. -/
theorem C2_report_partition_witness :
    batchStd.batch = itemUnpaid :: [] ∧
    (consume_batch cfgStd bal1 calcR0 [] batchStd
        payOneFail).canonical_write =
      some (get_payment_report_file_path cfgStd.payments_dir
          batchStd.cycle 0,
        batchStd.batch.filter
            (fun pi => pi.payable && pi.paid.is_processed) ++
          payOneFail.payment_logs.filter
            (fun p => ¬ p.paid = PaymentStatus.fail)) ∧
    (consume_batch cfgStd bal1 calcR0 [] batchStd
        payOneFail).failure_write =
      (if 0 < (payOneFail.payment_logs.filter
            (fun p => p.paid = PaymentStatus.fail)).length then
        some (get_payment_report_file_path cfgStd.payments_dir
            batchStd.cycle
            (payOneFail.payment_logs.filter
              (fun p => p.paid = PaymentStatus.fail)).length,
          payOneFail.payment_logs.filter
            (fun p => p.paid = PaymentStatus.fail))
       else none) :=
  ⟨rfl,
   (C2_report_partition cfgStd bal1 calcR0 [] batchStd payOneFail
      itemUnpaid [] rfl (by decide)).1,
   (C2_report_partition cfgStd bal1 calcR0 [] batchStd payOneFail
      itemUnpaid [] rfl (by decide)).2⟩

/-- C3 counterexample: a failure report left by an earlier attempt under
`failCount = 2` survives a later run of the same cycle that has zero Fail
outcomes — cleanup only ever targets the `failCount = 1` path. -/
theorem C3_counterexample :
    (count_and_log_failed payOnePaid.payment_logs).2.1 = 0 ∧
    FsPath.report "pd" 100 2 ∈ [FsPath.report "pd" 100 2] ∧
    FsPath.report "pd" 100 2 ∈
      (consume_batch cfgStd bal1 calcR0 [FsPath.report "pd" 100 2]
        batchStd payOnePaid).fs := by
  decide

/-- C3 (amended): after a normally completing run with zero Fail outcomes,
no `failCount = 1` failure report and no `failCount = 1` busy-marker for
the cycle remains on disk; failure reports recorded under other failCounts
by earlier attempts may remain. -/
theorem C3_amended_success_cleanup (cfg : ConsumerConfig)
    (balance : String → Nat) (calc_report : CalcReport) (fs : List FsPath)
    (payment_batch : Batch) (pay_result : PayResult)
    (first : RewardLog) (rest : List RewardLog)
    (hne : payment_batch.batch = first :: rest)
    (hexit : ¬ first.type = EXIT_PAYMENT_TYPE)
    (hnoraise : 0 < pay_result.total_attempts →
      ¬ cfg.calculations_dir = none)
    (hzero : (pay_result.payment_logs.filter
        (fun p => p.paid = PaymentStatus.fail)).length = 0) :
    FsPath.report cfg.payments_dir payment_batch.cycle 1 ∉
      (consume_batch cfg balance calc_report fs payment_batch
        pay_result).fs ∧
    FsPath.busy cfg.payments_dir payment_batch.cycle 1 ∉
      (consume_batch cfg balance calc_report fs payment_batch
        pay_result).fs := by
  obtain ⟨c, items, hp⟩ := payment_batch
  simp only at hne ⊢
  subst hne
  have hraised : (decide (0 < pay_result.total_attempts) &&
      (add_transaction_fees_to_calculation_report cfg.calculations_dir
        cfg.baking_address calc_report pay_result.payment_logs
        c).toOption.isNone) = false := by
    rcases Nat.eq_zero_or_pos pay_result.total_attempts with h | h
    · simp [h]
    · cases hcd : cfg.calculations_dir with
      | none => exact absurd hcd (hnoraise h)
      | some d =>
        simp [add_transaction_fees_to_calculation_report, Except.toOption]
  have hcount : (count_and_log_failed pay_result.payment_logs).2.1 = 0 := by
    rw [count_and_log_failed_eq]
    exact hzero
  simp only [consume_batch, hexit, reduceIte, hraised,
    Bool.false_eq_true, if_false]
  constructor <;> intro hmem <;>
    rw [mem_clean_failed_payment_reports] at hmem
  · exact hmem.2.1 ⟨by simp [hcount], rfl⟩
  · exact hmem.2.2 rfl

/-- C3 amended, witnessed: a stale `failCount = 1` failure report present
at the start of a fully-successful run is gone afterwards. -/
theorem C3_amended_success_cleanup_witness :
    (payOnePaid.payment_logs.filter
      (fun p => p.paid = PaymentStatus.fail)).length = 0 ∧
    FsPath.report "pd" 100 1 ∉
      (consume_batch cfgStd bal1 calcR0 [FsPath.report "pd" 100 1]
        batchStd payOnePaid).fs :=
  ⟨by decide,
   (C3_amended_success_cleanup cfgStd bal1 calcR0
      [FsPath.report "pd" 100 1] batchStd payOnePaid itemUnpaid [] rfl
      (by decide) (fun _ => by decide) (by decide)).1⟩

/-- C1 counterexample: a non-payable item with terminal Paid status enters
the batch, yet the canonical report written for the cycle does not contain
it — it is dropped by the payable filter before the carryover partition,
so it does not "reappear unchanged in the canonical report". -/
theorem C1_counterexample :
    itemNPP ∈ batchNPP.batch ∧
    itemNPP.paid.is_processed = true ∧
    ¬ (consume_batch cfgStd bal1 calcR0 [] batchNPP
        payEmpty).canonical_write = none ∧
    itemNPP ∉ canonical_items
      (consume_batch cfgStd bal1 calcR0 [] batchNPP payEmpty) := by
  decide

/-- C1 (amended): every payable item entering the batch with terminal
(Paid/Injected) status is excluded from the list passed to
`BatchPayer.pay` and reappears unchanged in the canonical report write. -/
theorem C1_amended_idempotent_carryover (cfg : ConsumerConfig)
    (balance : String → Nat) (calc_report : CalcReport) (fs : List FsPath)
    (payment_batch : Batch) (pay_result : PayResult)
    (first : RewardLog) (rest : List RewardLog)
    (hne : payment_batch.batch = first :: rest)
    (hexit : ¬ first.type = EXIT_PAYMENT_TYPE)
    (x : RewardLog) (hx : x ∈ payment_batch.batch)
    (hpay : x.payable = true) (hproc : x.paid.is_processed = true) :
    ¬ (consume_batch cfg balance calc_report fs payment_batch
        pay_result).pay_called = none ∧
    x ∉ pay_input_of
      (consume_batch cfg balance calc_report fs payment_batch
        pay_result) ∧
    x ∈ canonical_items
      (consume_batch cfg balance calc_report fs payment_batch
        pay_result) := by
  obtain ⟨c, items, hp⟩ := payment_batch
  simp only at hne hx ⊢
  subst hne
  have hrep := create_payment_report_spec cfg.payments_dir
    ((count_and_log_failed pay_result.payment_logs).2.1) c
    pay_result.payment_logs
    (((first :: rest).filter (·.payable)).filter
      (fun pi => pi.paid.is_processed))
    (fun a ha => (List.mem_filter.mp ha).2)
  simp only [consume_batch, hexit, reduceIte, pay_input_of,
    canonical_items, Option.map_some, Option.getD_some]
  refine ⟨by simp, ?_, ?_⟩
  · intro hmem
    have hun := pipeline_unprocessed cfg.dest_map cfg.reactivate_zeroed
      balance
      (((first :: rest).filter (·.payable)).filter
        (fun pi => ¬ pi.paid.is_processed))
      (fun y hy => by simpa using (List.mem_filter.mp hy).2)
      x hmem
    rw [hproc] at hun
    exact Bool.true_eq_false.mp hun
  · rw [hrep.1]
    refine List.mem_append_left _ ?_
    exact List.mem_filter.mpr ⟨List.mem_filter.mpr ⟨hx, hpay⟩, hproc⟩

/-- C1 amended, witnessed: a payable already-Paid carryover item is kept
out of the execution list and appears unchanged in the canonical report. -/
theorem C1_amended_idempotent_carryover_witness :
    itemPaidLog ∈ batchCarry.batch ∧
    itemPaidLog.payable = true ∧
    itemPaidLog.paid.is_processed = true ∧
    itemPaidLog ∉ pay_input_of
      (consume_batch cfgStd bal1 calcR0 [] batchCarry payEmpty) ∧
    itemPaidLog ∈ canonical_items
      (consume_batch cfgStd bal1 calcR0 [] batchCarry payEmpty) :=
  ⟨by decide, by decide, by decide,
   (C1_amended_idempotent_carryover cfgStd bal1 calcR0 [] batchCarry
      payEmpty itemPaidLog [] rfl (by decide) itemPaidLog (by decide)
      (by decide) (by decide)).2.1,
   (C1_amended_idempotent_carryover cfgStd bal1 calcR0 [] batchCarry
      payEmpty itemPaidLog [] rfl (by decide) itemPaidLog (by decide)
      (by decide) (by decide)).2.2⟩

end TRD
